import Mathlib

/-!
Shallow embedding of `storages/backends/gdrive.py` (the Google Drive storage
backend of this repository) together with the parts of its runtime environment
that the module's control flow depends on: Python dynamic values, the
exceptions the module can raise or catch, the `mimetypes` / `os.path.splitext`
helpers, `json.dumps`, and the OAuth credential objects, modelled symbolically.
The remote Drive service is a response oracle supplied at construction, so that
each adapter operation can be stated as a pure function returning the updated
adapter state, the list of remote calls issued, and the Python-level result
(normal value or raised exception).
-/

/-- A Python runtime value, restricted to the shapes that flow through the
gdrive module: `None`, booleans, integers, strings and string-keyed dicts. -/
inductive PyVal where
  | none
  | bool (b : Bool)
  | int (n : Int)
  | str (s : String)
  | dict (entries : List (String × PyVal))

/-- The exception classes relevant to the gdrive module: `HttpError` (the only
class its `exists` catches), `AttributeError`, `TypeError`,
`ImproperlyConfigured`, and a catch-all for any other exception class. -/
inductive PyErr where
  | httpError (status : Nat)
  | attributeError (msg : String)
  | typeError (msg : String)
  | improperlyConfigured (msg : String)
  | otherError (name : String)

mutual

/-- `json.dumps` serialisation of a Python value to its JSON text. -/
def jsonSerializeVal : PyVal → String
  | PyVal.none => "null"
  | PyVal.bool true => "true"
  | PyVal.bool false => "false"
  | PyVal.int n => toString n
  | PyVal.str s => "\"" ++ s ++ "\""
  | PyVal.dict entries => "\x7b" ++ jsonSerializeEntries entries ++ "\x7d"

/-- Serialisation of the entries of a JSON object, comma separated. -/
def jsonSerializeEntries : List (String × PyVal) → String
  | [] => ""
  | [(k, v)] => "\"" ++ k ++ "\": " ++ jsonSerializeVal v
  | (k, v) :: e :: rest =>
      "\"" ++ k ++ "\": " ++ jsonSerializeVal v ++ ", " ++ jsonSerializeEntries (e :: rest)

end

/-- Python `json.dumps`: returns the JSON text of the value as a Python
string object. -/
def json_dumps (v : PyVal) : PyVal := PyVal.str (jsonSerializeVal v)

/-- Python attribute call `v.get(key, default)`. Only dicts have a `get`
method; on any other value (in particular on the string that `json.dumps`
returns) the attribute lookup raises `AttributeError`. -/
def pyVal_get (v : PyVal) (key : String) (default : PyVal) : Except PyErr PyVal :=
  match v with
  | PyVal.dict entries => Except.ok ((entries.lookup key).getD default)
  | PyVal.str _ => Except.error (PyErr.attributeError "str object has no attribute get")
  | _ => Except.error (PyErr.attributeError "object has no attribute get")

/-- The final path component of a POSIX path (the part after the last `/`). -/
def basenamePart (p : List Char) : List Char :=
  (p.reverse.takeWhile (fun c => c ≠ '/')).reverse

/-- The extension produced by Python `os.path.splitext(p)[1]`: the suffix of
the final path component starting at its last dot, unless every character
before that dot in the component is itself a dot (so `.json` as a whole file
name has no extension). -/
def splitextExt (p : String) : String :=
  let base := basenamePart p.toList
  let leadingDots := base.takeWhile (fun c => c = '.')
  let rest := base.drop leadingDots.length
  if rest.contains '.' then
    String.mk ('.' :: (rest.reverse.takeWhile (fun c => c ≠ '.')).reverse)
  else ""

/-- Python `str.lower()`, character by character. -/
def pyLower (s : String) : String :=
  String.mk (s.toList.map Char.toLower)

/-- The extension-to-content-type table of Python `mimetypes` restricted to a
representative fragment containing every entry the gdrive module can meet:
the JSON and PKCS#12 entries plus ordinary unrelated types. `.pkcs12` is
deliberately absent, as in Python, where only `.p12` and `.pfx` map to the
PKCS#12 type. -/
def pythonTypesMap : List (String × String) :=
  [(".json", "application/json"),
   (".p12", "application/x-pkcs12"),
   (".pfx", "application/x-pkcs12"),
   (".txt", "text/plain"),
   (".html", "text/html"),
   (".pdf", "application/pdf")]

/-- Python `MimeTypes().guess_type(path)[0]` for a string path: look the
extension up in the table, falling back to its lowercase form. -/
def guess_type (path : String) : Option String :=
  let ext := splitextExt path
  match pythonTypesMap.lookup ext with
  | some t => some t
  | Option.none => pythonTypesMap.lookup (pyLower ext)

/-- The `VALID_MIME_TYPES_FOR_PKEY_FILE_DICT` constant of the module. -/
def VALID_MIME_TYPES_FOR_PKEY_FILE_DICT : List (String × String) :=
  [("PKCS12", "application/x-pkcs12"), ("JSON", "application/json")]

/-- The `VALID_EXTENSIONS_FOR_PKEY_FILE_DICT` constant of the module. -/
def VALID_EXTENSIONS_FOR_PKEY_FILE_DICT : List (String × String) :=
  [("PKCS12", ".pkcs12"), ("JSON", ".json")]

/-- The `SCOPES` constant of the module. -/
def SCOPES : List String := ["https://www.googleapis.com/auth/drive"]

/-- Python dict subscript `d[k]` for the two constant dicts above (the keys
are always present where the module uses it). -/
def dictGet (d : List (String × String)) (k : String) : String :=
  (d.lookup k).getD ""

/-- `oauth2client` service-account credential objects, symbolically: which
constructor was used with which arguments, and delegation wrapping. -/
inductive Credentials where
  | fromP12Keyfile (client_email : Option String) (filename : String)
      (private_key_password : Option String) (scopes : List String)
  | fromJsonKeyfileName (filename : String) (scopes : List String)
  | delegated (base : Credentials) (sub : String)

/-- `credentials.create_delegated(sub)`: wrap the credential for domain-wide
delegation to the given user. -/
def Credentials.create_delegated (c : Credentials) (sub : String) : Credentials :=
  Credentials.delegated c sub

/-- An `httplib2.Http` transport, tracking which credential (if any) has been
attached by `credentials.authorize`. -/
structure Http where
  credentials : Option Credentials

/-- `credentials.authorize(http)`: attach the credential to the transport. -/
def Credentials.authorize (c : Credentials) (h : Http) : Http :=
  { h with credentials := some c }

/-- One remote Drive API call: `client.files().get(...)` or
`client.files().delete(...)`, with its `fileId` and the remaining keyword
arguments in source order. -/
inductive ApiCall where
  | filesGet (fileId : String) (params : List (String × PyVal))
  | filesDelete (fileId : String) (params : List (String × PyVal))

/-- The keyword-argument names carried by a remote call. -/
def ApiCall.paramKeys : ApiCall → List String
  | ApiCall.filesGet _ ps => ps.map Prod.fst
  | ApiCall.filesDelete _ ps => ps.map Prod.fst

/-- The service object built by `discovery.build`: the service name and
version it was bound to, the authorized transport it holds, and the remote
service's behaviour as a response oracle (normal response or raised
exception for each call). -/
structure DriveClient where
  serviceName : String
  version : String
  http : Http
  respond : ApiCall → Except PyErr PyVal

/-- `discovery.build(serviceName, version, http=http)` against a remote
service behaving as `remote`. -/
def discovery_build (serviceName version : String) (http : Http)
    (remote : ApiCall → Except PyErr PyVal) : DriveClient :=
  { serviceName := serviceName, version := version, http := http, respond := remote }

/-- Modelled from the spec: the `setting` helper of `storages/utils` is not
under src/; per the spec, configuration values are environment-provided and
read once at construction, a missing value yielding the supplied default.
Modelled as a lookup of the name in the host configuration. -/
def setting (config : List (String × String)) (name : String)
    (default : Option String) : Option String :=
  match config.lookup name with
  | some v => some v
  | Option.none => default

/-- The `GDriveStorage` adapter state: the service client and the two
configuration flags stored by `__init__`. -/
structure GDriveStorage where
  client : DriveClient
  _support_team_drives : PyVal
  _acknowledge_abuse : PyVal

/-- The keyword arguments accepted by `GDriveStorage.__init__`; each is read
with `kwargs.get(..., None)`, so absence is `None`. -/
structure GDriveKwargs where
  create_delegated : Option String := Option.none
  supportsTeamDrives : PyVal := PyVal.none
  acknowledgeAbuse : PyVal := PyVal.none

/-- The source's guard `not mimetype or mimetype.lower() not in
VALID_MIME_TYPES_FOR_PKEY_FILE_DICT.values()`, as the (positive) test that
the guessed content type exists and is one of the recognized values. -/
def mimeRecognized (mimetype : Option String) : Bool :=
  match mimetype with
  | Option.none => false
  | some m => (VALID_MIME_TYPES_FOR_PKEY_FILE_DICT.map Prod.snd).contains (pyLower m)

/-- `GDriveStorage._build_credentials_object(pkey_file_path, client_email,
private_key_password)`: guess the key file's content type (Python raises
`TypeError` when the path is `None`); when it is missing or not one of the
two recognized types, fall back to the lowercased file extension, rejecting
with `ImproperlyConfigured` anything other than `.pkcs12` / `.json`; then
build a PKCS#12 credential (email, path, password, scopes) or a JSON
credential (path, scopes). -/
def _build_credentials_object (pkey_file_path : Option String)
    (client_email : Option String) (private_key_password : Option String) :
    Except PyErr Credentials :=
  match pkey_file_path with
  | Option.none =>
      Except.error (PyErr.typeError "guess_type expected str, not NoneType")
  | some path =>
    let mimetype0 := guess_type path
    let mimetypeE : Except PyErr String :=
      if !(mimeRecognized mimetype0) then
        let file_extension := splitextExt path
        if !((VALID_EXTENSIONS_FOR_PKEY_FILE_DICT.map Prod.snd).contains (pyLower file_extension)) then
          Except.error (PyErr.improperlyConfigured
            "You must provide a valid PKCS12 / JSON private key file")
        else if pyLower file_extension = dictGet VALID_EXTENSIONS_FOR_PKEY_FILE_DICT "PKCS12" then
          Except.ok (dictGet VALID_MIME_TYPES_FOR_PKEY_FILE_DICT "PKCS12")
        else
          Except.ok (dictGet VALID_MIME_TYPES_FOR_PKEY_FILE_DICT "JSON")
      else
        Except.ok (mimetype0.getD "")
    match mimetypeE with
    | Except.error e => Except.error e
    | Except.ok mimetype =>
      if mimetype = dictGet VALID_MIME_TYPES_FOR_PKEY_FILE_DICT "PKCS12" then
        Except.ok (Credentials.fromP12Keyfile client_email path private_key_password SCOPES)
      else
        Except.ok (Credentials.fromJsonKeyfileName path SCOPES)

/-- `GDriveStorage.__init__(**kwargs)`: read the three settings (default
`None`), read the three kwargs, build the credential object, wrap it with
`create_delegated` when a delegated email was given, authorize a fresh
`httplib2.Http()` transport, build the `drive` `v3` service client against
the remote oracle, and store the two flags. -/
def GDriveStorage.init (config : List (String × String)) (kwargs : GDriveKwargs)
    (remote : ApiCall → Except PyErr PyVal) : Except PyErr GDriveStorage :=
  let pkey_file_path := setting config "GDRIVE_PKEY_FILE_PATH" Option.none
  let client_email := setting config "GDRIVE_CLIENT_EMAIL" Option.none
  let private_key_password := setting config "GDRIVE_PKEY_PASSWORD" Option.none
  match _build_credentials_object pkey_file_path client_email private_key_password with
  | Except.error e => Except.error e
  | Except.ok credentials0 =>
    let credentials :=
      match kwargs.create_delegated with
      | some delegated_email => credentials0.create_delegated delegated_email
      | Option.none => credentials0
    let http := credentials.authorize { credentials := Option.none }
    Except.ok
      { client := discovery_build "drive" "v3" http remote,
        _support_team_drives := kwargs.supportsTeamDrives,
        _acknowledge_abuse := kwargs.acknowledgeAbuse }

/-- `GDriveStorage.delete(name)`: one `files().delete` call with keyword
argument `supportTeamDrives` set to the stored flag; the result is
discarded, a raised exception propagates. -/
def GDriveStorage.delete (self : GDriveStorage) (name : String) :
    GDriveStorage × List ApiCall × Except PyErr PyVal :=
  let call := ApiCall.filesDelete name [("supportTeamDrives", self._support_team_drives)]
  (self, [call],
    match self.client.respond call with
    | Except.ok _ => Except.ok PyVal.none
    | Except.error e => Except.error e)

/-- `GDriveStorage.exists(name)`: one `files().get` call with
`acknowledgeAbuse`; `HttpError` is caught and yields `False`, a normal
return yields `True`, any other exception propagates. -/
def GDriveStorage.exists (self : GDriveStorage) (name : String) :
    GDriveStorage × List ApiCall × Except PyErr PyVal :=
  let call := ApiCall.filesGet name [("acknowledgeAbuse", self._acknowledge_abuse)]
  (self, [call],
    match self.client.respond call with
    | Except.ok _ => Except.ok (PyVal.bool true)
    | Except.error (PyErr.httpError _) => Except.ok (PyVal.bool false)
    | Except.error e => Except.error e)

/-- `GDriveStorage.listdir(path)`: returns the pair of two fresh empty lists
with no remote call (the body is a stub). -/
def GDriveStorage.listdir (self : GDriveStorage) (path : String) :
    GDriveStorage × List ApiCall × Except PyErr (List PyVal × List PyVal) :=
  let directories : List PyVal := []
  let files : List PyVal := []
  (self, [], Except.ok (directories, files))

/-- `GDriveStorage.size(name)`: one `files().get` call with
`acknowledgeAbuse` and `fields="size"`, then `json.dumps` of the response
followed by `.get("size", None)` on the resulting string. -/
def GDriveStorage.size (self : GDriveStorage) (name : String) :
    GDriveStorage × List ApiCall × Except PyErr PyVal :=
  let call := ApiCall.filesGet name
    [("acknowledgeAbuse", self._acknowledge_abuse), ("fields", PyVal.str "size")]
  (self, [call],
    match self.client.respond call with
    | Except.error e => Except.error e
    | Except.ok response =>
        let gdrive_file_metadata := json_dumps response
        pyVal_get gdrive_file_metadata "size" PyVal.none)

/-- `GDriveStorage.modified_time(name)`: as `size`, with field
`modifiedTime`. -/
def GDriveStorage.modified_time (self : GDriveStorage) (name : String) :
    GDriveStorage × List ApiCall × Except PyErr PyVal :=
  let call := ApiCall.filesGet name
    [("acknowledgeAbuse", self._acknowledge_abuse), ("fields", PyVal.str "modifiedTime")]
  (self, [call],
    match self.client.respond call with
    | Except.error e => Except.error e
    | Except.ok response =>
        let gdrive_file_metadata := json_dumps response
        pyVal_get gdrive_file_metadata "modifiedTime" PyVal.none)

/-- `GDriveStorage.accessed_time(name)`: as `size`, with field
`viewedByMeTime`. -/
def GDriveStorage.accessed_time (self : GDriveStorage) (name : String) :
    GDriveStorage × List ApiCall × Except PyErr PyVal :=
  let call := ApiCall.filesGet name
    [("acknowledgeAbuse", self._acknowledge_abuse), ("fields", PyVal.str "viewedByMeTime")]
  (self, [call],
    match self.client.respond call with
    | Except.error e => Except.error e
    | Except.ok response =>
        let gdrive_file_metadata := json_dumps response
        pyVal_get gdrive_file_metadata "viewedByMeTime" PyVal.none)

/-- `GDriveStorage.url(name)`: as `size`, with field `webContentLink`. -/
def GDriveStorage.url (self : GDriveStorage) (name : String) :
    GDriveStorage × List ApiCall × Except PyErr PyVal :=
  let call := ApiCall.filesGet name
    [("acknowledgeAbuse", self._acknowledge_abuse), ("fields", PyVal.str "webContentLink")]
  (self, [call],
    match self.client.respond call with
    | Except.error e => Except.error e
    | Except.ok response =>
        let gdrive_file_metadata := json_dumps response
        pyVal_get gdrive_file_metadata "webContentLink" PyVal.none)

/-- `GDriveStorage._open(name, mode)`: stub body, returns `None`, no remote
call. -/
def GDriveStorage._open (self : GDriveStorage) (name : String) (mode : String) :
    GDriveStorage × List ApiCall × Except PyErr PyVal :=
  (self, [], Except.ok PyVal.none)

/-- `GDriveStorage._save(name, content)`: stub body, returns `None`, no
remote call. -/
def GDriveStorage._save (self : GDriveStorage) (name : String) (content : PyVal) :
    GDriveStorage × List ApiCall × Except PyErr PyVal :=
  (self, [], Except.ok PyVal.none)

/-! Concrete fixtures: remote oracles and adapter states used to evaluate the
definitions on concrete inputs. -/

/-- A remote service whose metadata responses contain every field the four
getters declare, so that each getter's mocked response contains its expected
field. -/
def demoRemoteMeta : ApiCall → Except PyErr PyVal := fun c =>
  match c with
  | ApiCall.filesGet _ _ =>
      Except.ok (PyVal.dict
        [("size", PyVal.str "123"),
         ("modifiedTime", PyVal.str "2016-01-01T00:00:00Z"),
         ("viewedByMeTime", PyVal.str "2016-01-02T00:00:00Z"),
         ("webContentLink", PyVal.str "https://drive.google.com/uc?id=f1")])
  | ApiCall.filesDelete _ _ => Except.ok (PyVal.dict [])

/-- An adapter over `demoRemoteMeta` with both optional flags set to `True`. -/
def demoStorage : GDriveStorage :=
  { client := discovery_build "drive" "v3" { credentials := Option.none } demoRemoteMeta,
    _support_team_drives := PyVal.bool true,
    _acknowledge_abuse := PyVal.bool true }

/-- A remote service that raises `HttpError` 404 on every call. -/
def demoRemote404 : ApiCall → Except PyErr PyVal := fun _ =>
  Except.error (PyErr.httpError 404)

/-- An adapter over `demoRemote404`. -/
def demoStorage404 : GDriveStorage :=
  { client := discovery_build "drive" "v3" { credentials := Option.none } demoRemote404,
    _support_team_drives := PyVal.none,
    _acknowledge_abuse := PyVal.none }

/-- A remote service that raises a non-`HttpError` exception (a transport
timeout) on every call. -/
def demoRemoteTimeout : ApiCall → Except PyErr PyVal := fun _ =>
  Except.error (PyErr.otherError "socket.timeout")

/-- An adapter over `demoRemoteTimeout`. -/
def demoStorageTimeout : GDriveStorage :=
  { client := discovery_build "drive" "v3" { credentials := Option.none } demoRemoteTimeout,
    _support_team_drives := PyVal.none,
    _acknowledge_abuse := PyVal.none }

/-- A remote service whose metadata responses are empty objects, lacking
every declared field. -/
def demoRemoteEmpty : ApiCall → Except PyErr PyVal := fun _ =>
  Except.ok (PyVal.dict [])

/-- An adapter over `demoRemoteEmpty`. -/
def demoStorageEmpty : GDriveStorage :=
  { client := discovery_build "drive" "v3" { credentials := Option.none } demoRemoteEmpty,
    _support_team_drives := PyVal.none,
    _acknowledge_abuse := PyVal.none }

/-- C10: for every adapter state and path argument, `listdir` returns the
unchanged state, an empty remote-call trace, and a normally returned pair of
two empty lists. -/
theorem C10_listdir_stub_empty_pair (self : GDriveStorage) (path : String) :
    self.listdir path = (self, [], Except.ok ([], [])) := rfl

/-- C5: for every adapter state and file identifier, `delete` issues exactly
one remote call, a `files().delete` for that identifier whose only keyword
argument is the shared-drive flag stored at construction. -/
theorem C5_delete_single_flagged_call (self : GDriveStorage) (name : String) :
    (self.delete name).2.1 =
      [ApiCall.filesDelete name [("supportTeamDrives", self._support_team_drives)]] := rfl

/-- C7: no operation of the adapter modifies the adapter state: the client
and the two configuration flags after each call are the state before it, for
every input. -/
theorem C7_operations_preserve_state (self : GDriveStorage)
    (name path mode : String) (content : PyVal) :
    (self.delete name).1 = self ∧ (self.exists name).1 = self ∧
    (self.listdir path).1 = self ∧ (self.size name).1 = self ∧
    (self.modified_time name).1 = self ∧ (self.accessed_time name).1 = self ∧
    (self.url name).1 = self ∧ (self._open name mode).1 = self ∧
    (self._save name content).1 = self :=
  ⟨rfl, rfl, rfl, rfl, rfl, rfl, rfl, rfl, rfl⟩

/-- C1: each metadata getter does issue one `files().get` requesting exactly
its declared field, but instead of returning the field's value (or `None`
when absent) it raises `AttributeError`: the response is passed through
`json.dumps`, and the resulting string has no `get` method. Evaluated on a
mocked response containing every expected field, and on one lacking them. -/
theorem C1_metadata_getters_raise_attribute_error :
    (demoStorage.size "f1").2.1 =
      [ApiCall.filesGet "f1" [("acknowledgeAbuse", PyVal.bool true), ("fields", PyVal.str "size")]]
    ∧ (demoStorage.size "f1").2.2 =
      Except.error (PyErr.attributeError "str object has no attribute get")
    ∧ (demoStorage.modified_time "f1").2.2 =
      Except.error (PyErr.attributeError "str object has no attribute get")
    ∧ (demoStorage.accessed_time "f1").2.2 =
      Except.error (PyErr.attributeError "str object has no attribute get")
    ∧ (demoStorage.url "f1").2.2 =
      Except.error (PyErr.attributeError "str object has no attribute get")
    ∧ (demoStorageEmpty.size "f1").2.2 =
      Except.error (PyErr.attributeError "str object has no attribute get") :=
  ⟨rfl, rfl, rfl, rfl, rfl, rfl⟩

/-- C2: for every adapter state and file identifier, `exists` returns `True`
when the metadata fetch returns normally (whatever the response value), and
`False` when it raises `HttpError` (whatever the status). -/
theorem C2_exists_truth_values (self : GDriveStorage) (name : String) :
    (∀ v, self.client.respond (ApiCall.filesGet name [("acknowledgeAbuse", self._acknowledge_abuse)])
        = Except.ok v → (self.exists name).2.2 = Except.ok (PyVal.bool true))
    ∧ (∀ status, self.client.respond (ApiCall.filesGet name [("acknowledgeAbuse", self._acknowledge_abuse)])
        = Except.error (PyErr.httpError status) →
        (self.exists name).2.2 = Except.ok (PyVal.bool false)) := by
  constructor
  · intro v h
    simp only [GDriveStorage.exists, h]
  · intro status h
    simp only [GDriveStorage.exists, h]

/-- Witness for C2 at concrete adapters: a normally responding remote yields
`True`, a remote raising `HttpError` 404 yields `False`. -/
theorem C2_exists_truth_values_witness :
    (demoStorage.exists "f1").2.2 = Except.ok (PyVal.bool true)
    ∧ (demoStorage404.exists "f1").2.2 = Except.ok (PyVal.bool false) :=
  ⟨(C2_exists_truth_values demoStorage "f1").1 _ rfl,
   (C2_exists_truth_values demoStorage404 "f1").2 404 rfl⟩

/-- C9: `exists` downgrades only `HttpError` to `False`; any other exception
raised by the metadata fetch propagates unchanged to the caller. -/
theorem C9_exists_propagates_non_http_errors (self : GDriveStorage) (name : String)
    (e : PyErr)
    (h : self.client.respond (ApiCall.filesGet name [("acknowledgeAbuse", self._acknowledge_abuse)])
        = Except.error e)
    (hne : ∀ status, e ≠ PyErr.httpError status) :
    (self.exists name).2.2 = Except.error e := by
  cases e with
  | httpError status => exact absurd rfl (hne status)
  | attributeError msg => simp only [GDriveStorage.exists, h]
  | typeError msg => simp only [GDriveStorage.exists, h]
  | improperlyConfigured msg => simp only [GDriveStorage.exists, h]
  | otherError nm => simp only [GDriveStorage.exists, h]

/-- Witness for C9: a transport timeout (not an `HttpError`) raised by the
fetch propagates out of `exists`. -/
theorem C9_exists_propagates_non_http_errors_witness :
    (demoStorageTimeout.exists "f1").2.2 = Except.error (PyErr.otherError "socket.timeout") :=
  C9_exists_propagates_non_http_errors demoStorageTimeout "f1"
    (PyErr.otherError "socket.timeout") rfl
    (fun _ h => PyErr.noConfusion h)

/-- C3: construction with the key-file path setting missing does not raise
`ImproperlyConfigured`: `mime.guess_type(None)` raises `TypeError` first
(with or without the email present), and construction with only the key-file
path present (service-account email missing) raises no configuration error
at all — the email is never validated. This contradicts the repository's own
tests, which assert `ImproperlyConfigured` in both missing-setting cases. -/
theorem C3_missing_settings_do_not_raise_configuration_error :
    GDriveStorage.init
        [("GDRIVE_CLIENT_EMAIL", "fakeuser@fakeproject-1234.iam.gserviceaccount.com")] {}
        demoRemoteMeta
      = Except.error (PyErr.typeError "guess_type expected str, not NoneType")
    ∧ GDriveStorage.init [] {} demoRemoteMeta
      = Except.error (PyErr.typeError "guess_type expected str, not NoneType")
    ∧ (GDriveStorage.init [("GDRIVE_PKEY_FILE_PATH", "/fake/path.json")] {}
        demoRemoteMeta).toOption.isSome = true :=
  ⟨rfl, rfl, by decide⟩

/-- C4: the key-encoding decision of `_build_credentials_object`: a guessed
content type equal to one of the two recognized types selects its credential
path directly; a missing or unrecognized content type falls back to the
lowercased file extension, `.pkcs12` selecting the PKCS#12 credential and
`.json` the JSON credential; when the extension is neither of those either,
the call raises `ImproperlyConfigured` and builds no credential. -/
theorem C4_key_encoding_decision (path : String) (em pw : Option String) :
    (guess_type path = some "application/x-pkcs12" →
      _build_credentials_object (some path) em pw =
        Except.ok (Credentials.fromP12Keyfile em path pw SCOPES))
    ∧ (guess_type path = some "application/json" →
      _build_credentials_object (some path) em pw =
        Except.ok (Credentials.fromJsonKeyfileName path SCOPES))
    ∧ (mimeRecognized (guess_type path) = false →
      ((pyLower (splitextExt path) = ".pkcs12" →
        _build_credentials_object (some path) em pw =
          Except.ok (Credentials.fromP12Keyfile em path pw SCOPES))
      ∧ (pyLower (splitextExt path) = ".json" →
        _build_credentials_object (some path) em pw =
          Except.ok (Credentials.fromJsonKeyfileName path SCOPES))
      ∧ (pyLower (splitextExt path) ≠ ".pkcs12" → pyLower (splitextExt path) ≠ ".json" →
        _build_credentials_object (some path) em pw =
          Except.error (PyErr.improperlyConfigured
            "You must provide a valid PKCS12 / JSON private key file")))) := by
  refine ⟨?_, ?_, ?_⟩
  · intro h
    simp only [_build_credentials_object, h]
    rfl
  · intro h
    simp only [_build_credentials_object, h]
    rfl
  · intro hm
    refine ⟨?_, ?_, ?_⟩
    · intro he
      simp only [_build_credentials_object, hm, he]
      rfl
    · intro he
      simp only [_build_credentials_object, hm, he]
      rfl
    · intro hne1 hne2
      have hc : (VALID_EXTENSIONS_FOR_PKEY_FILE_DICT.map Prod.snd).contains
          (pyLower (splitextExt path)) = false := by
        cases hc0 : (VALID_EXTENSIONS_FOR_PKEY_FILE_DICT.map Prod.snd).contains
            (pyLower (splitextExt path)) with
        | false => rfl
        | true =>
            have hmem : pyLower (splitextExt path) ∈
                VALID_EXTENSIONS_FOR_PKEY_FILE_DICT.map Prod.snd := List.elem_iff.mp hc0
            simp only [VALID_EXTENSIONS_FOR_PKEY_FILE_DICT, List.map, List.mem_cons,
              List.not_mem_nil, or_false] at hmem
            rcases hmem with h | h
            · exact absurd h hne1
            · exact absurd h hne2
      simp only [_build_credentials_object, hm, hc]
      rfl

/-- Witness for C4 at the four kinds of key path: `.p12` (content type
recognized), `.json` (content type recognized), `.pkcs12` (extension
fallback) and `.foo` (rejected). -/
theorem C4_key_encoding_decision_witness :
    _build_credentials_object (some "/fake/key.p12")
        (some "fakeuser@fakeproject-1234.iam.gserviceaccount.com") (some "notasecret")
      = Except.ok (Credentials.fromP12Keyfile
          (some "fakeuser@fakeproject-1234.iam.gserviceaccount.com") "/fake/key.p12"
          (some "notasecret") SCOPES)
    ∧ _build_credentials_object (some "/fake/key.json")
        (some "fakeuser@fakeproject-1234.iam.gserviceaccount.com") (some "notasecret")
      = Except.ok (Credentials.fromJsonKeyfileName "/fake/key.json" SCOPES)
    ∧ _build_credentials_object (some "/fake/key.pkcs12")
        (some "fakeuser@fakeproject-1234.iam.gserviceaccount.com") (some "notasecret")
      = Except.ok (Credentials.fromP12Keyfile
          (some "fakeuser@fakeproject-1234.iam.gserviceaccount.com") "/fake/key.pkcs12"
          (some "notasecret") SCOPES)
    ∧ _build_credentials_object (some "/fake/key.foo")
        (some "fakeuser@fakeproject-1234.iam.gserviceaccount.com") (some "notasecret")
      = Except.error (PyErr.improperlyConfigured
          "You must provide a valid PKCS12 / JSON private key file") :=
  ⟨(C4_key_encoding_decision "/fake/key.p12"
      (some "fakeuser@fakeproject-1234.iam.gserviceaccount.com") (some "notasecret")).1
      (by decide),
   (C4_key_encoding_decision "/fake/key.json"
      (some "fakeuser@fakeproject-1234.iam.gserviceaccount.com") (some "notasecret")).2.1
      (by decide),
   ((C4_key_encoding_decision "/fake/key.pkcs12"
      (some "fakeuser@fakeproject-1234.iam.gserviceaccount.com") (some "notasecret")).2.2
      (by decide)).1 (by decide),
   (((C4_key_encoding_decision "/fake/key.foo"
      (some "fakeuser@fakeproject-1234.iam.gserviceaccount.com") (some "notasecret")).2.2
      (by decide)).2.2 (by decide) (by decide))⟩

/-- A remote call carries the shared-drive support flag when a keyword
argument with either of the source's two spellings of it is present. -/
def carriesSharedDriveFlag (c : ApiCall) : Prop :=
  "supportsTeamDrives" ∈ c.paramKeys ∨ "supportTeamDrives" ∈ c.paramKeys

/-- A remote call carries the abuse-acknowledgment flag when its keyword
argument is present. -/
def carriesAbuseFlag (c : ApiCall) : Prop :=
  "acknowledgeAbuse" ∈ c.paramKeys

/-- Counterexample to C6 as stated: for an adapter constructed with both
flags set, the single remote call issued by `delete` does not carry the
abuse-acknowledgment flag (and the calls issued by `exists` and `size` do
not carry the shared-drive flag), so the two flags are not attached to every
remote call. -/
theorem C6_counterexample :
    ¬ (∀ c ∈ (demoStorage.delete "f1").2.1 ++ (demoStorage.exists "f1").2.1
          ++ (demoStorage.size "f1").2.1,
        carriesSharedDriveFlag c ∧ carriesAbuseFlag c) := by
  intro h
  have hd := h (ApiCall.filesDelete "f1" [("supportTeamDrives", PyVal.bool true)])
    (List.mem_append_left _ (List.mem_append_left _ (List.mem_cons_self _ _)))
  have habuse := hd.2
  simp only [carriesAbuseFlag, ApiCall.paramKeys, List.map, List.mem_cons,
    List.not_mem_nil, or_false] at habuse
  exact absurd habuse (by decide)

/-- C6 as amended: each remote call carries exactly the flag relevant to its
kind, with the value captured at construction: construction stores the two
kwargs unchanged, `delete` attaches the shared-drive flag (and only it), and
`exists` and the four metadata getters attach the abuse-acknowledgment flag
(the getters also their `fields` selector), never the shared-drive flag. -/
theorem C6_flags_captured_and_attached_per_call (config : List (String × String))
    (kwargs : GDriveKwargs) (remote : ApiCall → Except PyErr PyVal)
    (st self : GDriveStorage) (name : String)
    (hst : GDriveStorage.init config kwargs remote = Except.ok st) :
    (st._support_team_drives = kwargs.supportsTeamDrives
      ∧ st._acknowledge_abuse = kwargs.acknowledgeAbuse)
    ∧ (self.delete name).2.1 =
        [ApiCall.filesDelete name [("supportTeamDrives", self._support_team_drives)]]
    ∧ (self.exists name).2.1 =
        [ApiCall.filesGet name [("acknowledgeAbuse", self._acknowledge_abuse)]]
    ∧ (self.size name).2.1 =
        [ApiCall.filesGet name
          [("acknowledgeAbuse", self._acknowledge_abuse), ("fields", PyVal.str "size")]]
    ∧ (self.modified_time name).2.1 =
        [ApiCall.filesGet name
          [("acknowledgeAbuse", self._acknowledge_abuse), ("fields", PyVal.str "modifiedTime")]]
    ∧ (self.accessed_time name).2.1 =
        [ApiCall.filesGet name
          [("acknowledgeAbuse", self._acknowledge_abuse), ("fields", PyVal.str "viewedByMeTime")]]
    ∧ (self.url name).2.1 =
        [ApiCall.filesGet name
          [("acknowledgeAbuse", self._acknowledge_abuse), ("fields", PyVal.str "webContentLink")]] := by
  refine ⟨?_, rfl, rfl, rfl, rfl, rfl, rfl⟩
  simp only [GDriveStorage.init] at hst
  cases hb : _build_credentials_object (setting config "GDRIVE_PKEY_FILE_PATH" Option.none)
      (setting config "GDRIVE_CLIENT_EMAIL" Option.none)
      (setting config "GDRIVE_PKEY_PASSWORD" Option.none) with
  | error e => rw [hb] at hst; cases hst
  | ok c =>
      rw [hb] at hst
      injection hst with h
      subst h
      exact ⟨rfl, rfl⟩

/-- Host configuration with only the key-file path set, pointing at a JSON
key file. -/
def demoDelegConfig : List (String × String) :=
  [("GDRIVE_PKEY_FILE_PATH", "/fake/path.json")]

/-- Constructor kwargs with a delegated user and both flags given. -/
def demoDelegKwargs : GDriveKwargs :=
  { create_delegated := some "user@fakedomain.com",
    supportsTeamDrives := PyVal.bool true,
    acknowledgeAbuse := PyVal.bool false }

/-- The adapter state that `GDriveStorage.init demoDelegConfig
demoDelegKwargs demoRemoteMeta` produces. -/
def demoDelegStorage : GDriveStorage :=
  { client := discovery_build "drive" "v3"
      { credentials := some (Credentials.delegated
          (Credentials.fromJsonKeyfileName "/fake/path.json" SCOPES) "user@fakedomain.com") }
      demoRemoteMeta,
    _support_team_drives := PyVal.bool true,
    _acknowledge_abuse := PyVal.bool false }

/-- Witness for C6 as amended, at a concrete construction and concrete
calls. -/
theorem C6_flags_captured_and_attached_per_call_witness :
    (demoDelegStorage._support_team_drives = demoDelegKwargs.supportsTeamDrives
      ∧ demoDelegStorage._acknowledge_abuse = demoDelegKwargs.acknowledgeAbuse)
    ∧ (demoDelegStorage.delete "f1").2.1 =
        [ApiCall.filesDelete "f1" [("supportTeamDrives", demoDelegStorage._support_team_drives)]]
    ∧ (demoDelegStorage.exists "f1").2.1 =
        [ApiCall.filesGet "f1" [("acknowledgeAbuse", demoDelegStorage._acknowledge_abuse)]]
    ∧ (demoDelegStorage.size "f1").2.1 =
        [ApiCall.filesGet "f1"
          [("acknowledgeAbuse", demoDelegStorage._acknowledge_abuse), ("fields", PyVal.str "size")]]
    ∧ (demoDelegStorage.modified_time "f1").2.1 =
        [ApiCall.filesGet "f1"
          [("acknowledgeAbuse", demoDelegStorage._acknowledge_abuse), ("fields", PyVal.str "modifiedTime")]]
    ∧ (demoDelegStorage.accessed_time "f1").2.1 =
        [ApiCall.filesGet "f1"
          [("acknowledgeAbuse", demoDelegStorage._acknowledge_abuse), ("fields", PyVal.str "viewedByMeTime")]]
    ∧ (demoDelegStorage.url "f1").2.1 =
        [ApiCall.filesGet "f1"
          [("acknowledgeAbuse", demoDelegStorage._acknowledge_abuse), ("fields", PyVal.str "webContentLink")]] :=
  C6_flags_captured_and_attached_per_call demoDelegConfig demoDelegKwargs demoRemoteMeta
    demoDelegStorage demoDelegStorage "f1" rfl

/-- C8: when a delegated-user email is supplied, the transport authorized at
construction holds the impersonation wrapping of the base service-account
credential; and the private-key passphrase appears in the built credential
only on the PKCS#12 path — every credential construction is either a raised
error, a PKCS#12 credential carrying the passphrase, or a JSON credential
carrying no passphrase at all. -/
theorem C8_delegation_and_password_paths (config : List (String × String))
    (kwargs : GDriveKwargs) (remote : ApiCall → Except PyErr PyVal)
    (email : String) (c : Credentials) (st : GDriveStorage) :
    (kwargs.create_delegated = some email →
      _build_credentials_object (setting config "GDRIVE_PKEY_FILE_PATH" Option.none)
          (setting config "GDRIVE_CLIENT_EMAIL" Option.none)
          (setting config "GDRIVE_PKEY_PASSWORD" Option.none) = Except.ok c →
      GDriveStorage.init config kwargs remote = Except.ok st →
      st.client.http = { credentials := some (Credentials.delegated c email) })
    ∧ (∀ path em pw,
        (∃ why, _build_credentials_object (some path) em pw = Except.error why)
        ∨ _build_credentials_object (some path) em pw =
            Except.ok (Credentials.fromP12Keyfile em path pw SCOPES)
        ∨ _build_credentials_object (some path) em pw =
            Except.ok (Credentials.fromJsonKeyfileName path SCOPES)) := by
  constructor
  · intro hd hb hst
    simp only [GDriveStorage.init] at hst
    rw [hb, hd] at hst
    injection hst with h
    subst h
    rfl
  · intro path em pw
    cases hmr : mimeRecognized (guess_type path) with
    | false =>
        cases hce : (VALID_EXTENSIONS_FOR_PKEY_FILE_DICT.map Prod.snd).contains
            (pyLower (splitextExt path)) with
        | false =>
            refine Or.inl ⟨PyErr.improperlyConfigured
              "You must provide a valid PKCS12 / JSON private key file", ?_⟩
            simp only [_build_credentials_object, hmr, hce]
            rfl
        | true =>
            by_cases hpk : pyLower (splitextExt path)
                = dictGet VALID_EXTENSIONS_FOR_PKEY_FILE_DICT "PKCS12"
            · refine Or.inr (Or.inl ?_)
              simp only [_build_credentials_object, hmr, hce]
              rw [if_pos hpk]
              rfl
            · refine Or.inr (Or.inr ?_)
              simp only [_build_credentials_object, hmr, hce]
              rw [if_neg hpk]
              rfl
    | true =>
        have hred : _build_credentials_object (some path) em pw =
            (if (guess_type path).getD "" = dictGet VALID_MIME_TYPES_FOR_PKEY_FILE_DICT "PKCS12" then
              Except.ok (Credentials.fromP12Keyfile em path pw SCOPES)
            else Except.ok (Credentials.fromJsonKeyfileName path SCOPES)) := by
          simp only [_build_credentials_object, hmr]
          rfl
        by_cases hfin : (guess_type path).getD ""
            = dictGet VALID_MIME_TYPES_FOR_PKEY_FILE_DICT "PKCS12"
        · refine Or.inr (Or.inl ?_)
          rw [hred, if_pos hfin]
        · refine Or.inr (Or.inr ?_)
          rw [hred, if_neg hfin]

/-- Witness for C8: a concrete delegated construction over a JSON key file,
whose authorized transport holds the impersonation credential, and the
credential trichotomy evaluated at a concrete path. -/
theorem C8_delegation_and_password_paths_witness :
    demoDelegStorage.client.http =
      { credentials := some (Credentials.delegated
          (Credentials.fromJsonKeyfileName "/fake/path.json" SCOPES) "user@fakedomain.com") }
    ∧ ((∃ why, _build_credentials_object (some "/fake/key.json") Option.none Option.none
          = Except.error why)
        ∨ _build_credentials_object (some "/fake/key.json") Option.none Option.none =
            Except.ok (Credentials.fromP12Keyfile Option.none "/fake/key.json" Option.none SCOPES)
        ∨ _build_credentials_object (some "/fake/key.json") Option.none Option.none =
            Except.ok (Credentials.fromJsonKeyfileName "/fake/key.json" SCOPES)) :=
  ⟨(C8_delegation_and_password_paths demoDelegConfig demoDelegKwargs demoRemoteMeta
      "user@fakedomain.com" (Credentials.fromJsonKeyfileName "/fake/path.json" SCOPES)
      demoDelegStorage).1 rfl rfl rfl,
   (C8_delegation_and_password_paths demoDelegConfig demoDelegKwargs demoRemoteMeta
      "user@fakedomain.com" (Credentials.fromJsonKeyfileName "/fake/path.json" SCOPES)
      demoDelegStorage).2 "/fake/key.json" Option.none Option.none⟩
